import Mathlib

/-!
Verificación de la gestión de colegios (CSV local, proyección jerárquica,
motor de consultas). Las definiciones siguientes son una inmersión
superficial ("shallow embedding") del código Python del repositorio:

* `src/funciones/utilidades.py` : normalizar, leer_csv, escribir_csv
* `src/funciones/jerarquia.py`  : limpiar_nombre_archivo, organizar_por_*,
  sincronizar_estructura_jerarquica
* `src/funciones/busqueda.py`   : buscar_colegio, filtrar_por_rango_*
* `src/funciones/estadisticas.py` : mostrar_estadisticas
* `src/funciones/carga_datos.py`  : agregar/editar/borrar_colegio
* `src/funciones/modo_api.py`     : espejo API → CSV local

Convenciones de la inmersión:
* los enteros de Python se modelan con `Int` (precisión arbitraria);
* las cadenas se modelan con `String`/`List Char`; las operaciones de
  cadena de Python usadas por el código (str.strip, int(...), str(int),
  str.lower, descomposición NFD para el repertorio latino del dominio)
  se definen explícitamente más abajo sobre `List Char`;
* el módulo csv de la biblioteca estándar se modela a nivel de filas:
  un archivo CSV con la cabecera estándar es una lista de filas de
  cuatro campos de texto (el módulo csv preserva exactamente cada campo
  al escribir y releer, con su mecanismo de comillas);
* la E/S con fallo se modela con un parámetro explícito de resultado.
-/

/-- Un registro de colegio: los cuatro campos lógicos del sistema. -/
structure Colegio where
  provincia : String
  colegio : String
  cantidad : Int
  anio : Int
deriving DecidableEq, Repr

/-- Una fila cruda de CSV bajo la cabecera estándar
Provincia, Colegio, Cantidad de Estudiantes, Año de Creación:
los cuatro campos como texto sin procesar. -/
structure FilaCSV where
  provincia : String
  colegio : String
  cantidad : String
  anio : String
deriving DecidableEq, Repr

/-- Espacios en blanco que elimina str.strip() de Python
(repertorio ASCII usado por los datos del dominio). -/
def esEspacio (c : Char) : Bool :=
  c = ' ' || c = '\t' || c = '\n' || c = '\r' || c = '\x0b' || c = '\x0c'

/-- Modelo de str.strip() de Python: quita espacios en blanco
al principio y al final. -/
def recortar (s : String) : String :=
  ⟨((s.data.dropWhile esEspacio).reverse.dropWhile esEspacio).reverse⟩

/-- Valor numérico de un carácter de dígito decimal. -/
def valCifra (c : Char) : Nat := c.toNat - 48

/-- Consumo de la parte de dígitos de int(...) de Python tras el primer
dígito: cada dígito siguiente puede ir precedido de un guion bajo. -/
def pyDigitos (acc : Nat) : List Char → Option Nat
  | [] => some acc
  | c :: resto =>
    if c = '_' then
      match resto with
      | [] => none
      | d :: resto₂ =>
        if d.isDigit then pyDigitos (acc * 10 + valCifra d) resto₂ else none
    else if c.isDigit then pyDigitos (acc * 10 + valCifra c) resto
    else none

/-- Parte de dígitos de un literal decimal de Python: un dígito inicial
seguido de dígitos, con guiones bajos permitidos solo entre dígitos. -/
def pyParteDigitos (l : List Char) : Option Nat :=
  match l with
  | [] => none
  | c :: resto => if c.isDigit then pyDigitos (valCifra c) resto else none

/-- Modelo de int(s) de Python sobre una cadena ya recortada:
signo opcional seguido de la parte de dígitos (repertorio ASCII). -/
def pyInt (s : String) : Option Int :=
  match s.data with
  | [] => none
  | c :: resto =>
    if c = '+' then (pyParteDigitos resto).map Int.ofNat
    else if c = '-' then (pyParteDigitos resto).map (fun n => -(Int.ofNat n))
    else (pyParteDigitos (c :: resto)).map Int.ofNat

/-- Carácter de un dígito decimal (0–9). -/
def cifra : Nat → Char
  | 0 => '0' | 1 => '1' | 2 => '2' | 3 => '3' | 4 => '4'
  | 5 => '5' | 6 => '6' | 7 => '7' | 8 => '8' | _ => '9'

/-- Dígitos decimales de un natural, en orden de lectura. -/
def natCifras (n : Nat) : List Char :=
  if _h : n < 10 then [cifra n]
  else natCifras (n / 10) ++ [cifra (n % 10)]
decreasing_by exact Nat.div_lt_self (by omega) (by omega)

/-- Modelo de str(i) de Python para un entero. -/
def intRepr (i : Int) : String :=
  match i with
  | .ofNat n => ⟨natCifras n⟩
  | .negSucc m => ⟨'-' :: natCifras (m + 1)⟩

/-- Cuerpo del bucle de leer_csv sobre una fila
(utilidades.py líneas 58–88): recorta los campos, exige provincia y
colegio no vacíos, convierte los campos numéricos con int(...) tomando 0
si el texto está vacío; cualquier fallo descarta la fila. -/
def procesar_fila (f : FilaCSV) : Option Colegio :=
  let provincia := recortar f.provincia
  let colegio := recortar f.colegio
  let cantidadStr := recortar f.cantidad
  let anioStr := recortar f.anio
  if provincia = "" || colegio = "" then none
  else
    let cantidad? := if cantidadStr = "" then some (0 : Int) else pyInt cantidadStr
    let anio? := if anioStr = "" then some (0 : Int) else pyInt anioStr
    match cantidad?, anio? with
    | some cant, some a => some ⟨provincia, colegio, cant, a⟩
    | _, _ => none

/-- Bucle de leer_csv: acumula los registros válidos en orden y cuenta
las filas descartadas. -/
def leer_csv_bucle (filas : List FilaCSV) (acc : List Colegio) (invalidas : Nat) :
    List Colegio × Nat :=
  match filas with
  | [] => (acc, invalidas)
  | f :: resto =>
    match procesar_fila f with
    | some c => leer_csv_bucle resto (acc ++ [c]) invalidas
    | none => leer_csv_bucle resto acc (invalidas + 1)

/-- leer_csv (utilidades.py líneas 33–97): un archivo inexistente
(entrada none) da la colección vacía sin error; si existe, procesa cada
fila bajo la cabecera estándar y devuelve los registros válidos junto
con el número de filas omitidas. -/
def leer_csv (archivo : Option (List FilaCSV)) : List Colegio × Nat :=
  match archivo with
  | none => ([], 0)
  | some filas => leer_csv_bucle filas [] 0

/-- Filas que emite escribir_csv (utilidades.py líneas 113–124) para una
colección: un registro por fila, con los enteros convertidos por str(). -/
def filas_escritas (colegios : List Colegio) : List FilaCSV :=
  colegios.map (fun c => ⟨c.provincia, c.colegio, intRepr c.cantidad, intRepr c.anio⟩)

/-- Predicado de validez de una fila, tal como lo enuncia la
especificación: provincia y colegio recortados no vacíos y campos
numéricos que o bien están vacíos o bien se convierten con int(...). -/
def num_ok (s : String) : Bool :=
  recortar s = "" || (pyInt (recortar s)).isSome

/-- Una fila se conserva si sus campos obligatorios recortados no están
vacíos y sus campos numéricos son convertibles (o están ausentes). -/
def fila_valida (f : FilaCSV) : Bool :=
  !(recortar f.provincia = "") && !(recortar f.colegio = "") &&
    num_ok f.cantidad && num_ok f.anio

/-- Valor numérico de un campo conservado: 0 si está vacío, si no el
entero convertido. -/
def valor_num (s : String) : Int :=
  if recortar s = "" then 0 else (pyInt (recortar s)).getD 0

/-- Registro que produce una fila conservada según la especificación. -/
def fila_conservada (f : FilaCSV) : Option Colegio :=
  if fila_valida f then
    some ⟨recortar f.provincia, recortar f.colegio,
          valor_num f.cantidad, valor_num f.anio⟩
  else none

/-- Un registro válido según el modelo de datos de la especificación
para el viaje de ida y vuelta: cadenas obligatorias no vacías y ya
recortadas. -/
def registro_valido (c : Colegio) : Prop :=
  recortar c.provincia = c.provincia ∧ c.provincia ≠ "" ∧
    recortar c.colegio = c.colegio ∧ c.colegio ≠ ""

instance (c : Colegio) : Decidable (registro_valido c) := by
  unfold registro_valido
  infer_instance

example : pyInt "350" = some 350 := by decide
example : pyInt "-5" = some (-5) := by decide
example : pyInt "not-a-number" = none := by decide
example : pyInt "1_0" = some 10 := by decide
example : pyInt "_1" = none := by decide
example : recortar "  hola  " = "hola" := by decide

/-! ### Lemas sobre dígitos, int(...) y str(int) -/

lemma cifra_isDigit {d : Nat} (h : d < 10) : (cifra d).isDigit = true := by
  interval_cases d <;> decide

lemma valCifra_cifra {d : Nat} (h : d < 10) : valCifra (cifra d) = d := by
  interval_cases d <;> decide

lemma isDigit_ne_guion {c : Char} (h : c.isDigit = true) : ¬(c = '_') := by
  intro e; subst e; exact absurd h (by decide)

lemma isDigit_ne_mas {c : Char} (h : c.isDigit = true) : ¬(c = '+') := by
  intro e; subst e; exact absurd h (by decide)

lemma isDigit_ne_menos {c : Char} (h : c.isDigit = true) : ¬(c = '-') := by
  intro e; subst e; exact absurd h (by decide)

lemma isDigit_noEspacio {c : Char} (h : c.isDigit = true) : esEspacio c = false := by
  by_contra hne
  rw [Bool.not_eq_false] at hne
  have hc : c = ' ' ∨ c = '\t' ∨ c = '\n' ∨ c = '\r' ∨ c = '\x0b' ∨ c = '\x0c' := by
    simpa [esEspacio, or_assoc] using hne
  rcases hc with h1 | h1 | h1 | h1 | h1 | h1 <;> (subst h1; exact absurd h (by decide))

lemma pyDigitos_digito {c : Char} (h : c.isDigit = true) (acc : Nat) (l : List Char) :
    pyDigitos acc (c :: l) = pyDigitos (acc * 10 + valCifra c) l := by
  conv_lhs => unfold pyDigitos
  rw [if_neg (isDigit_ne_guion h), if_pos h]

lemma natCifras_ne_nil (n : Nat) : natCifras n ≠ [] := by
  unfold natCifras
  split
  · simp
  · simp

lemma natCifras_digitos (n : Nat) : ∀ c ∈ natCifras n, c.isDigit = true := by
  induction n using Nat.strong_induction_on with
  | _ n ih =>
    unfold natCifras
    split
    · next h =>
      intro c hc
      rw [List.mem_singleton] at hc
      subst hc; exact cifra_isDigit h
    · next h =>
      intro c hc
      rcases List.mem_append.mp hc with h1 | h1
      · exact ih (n / 10) (Nat.div_lt_self (by omega) (by omega)) c h1
      · rw [List.mem_singleton] at h1
        subst h1; exact cifra_isDigit (Nat.mod_lt n (by omega))

lemma pyParteDigitos_natCifras_append (n : Nat) :
    ∀ l : List Char, pyParteDigitos (natCifras n ++ l) = pyDigitos n l := by
  induction n using Nat.strong_induction_on with
  | _ n ih =>
    intro l
    unfold natCifras
    by_cases h : n < 10
    · rw [dif_pos h]
      show (if (cifra n).isDigit = true then pyDigitos (valCifra (cifra n)) l else none) =
        pyDigitos n l
      rw [if_pos (cifra_isDigit h), valCifra_cifra h]
    · rw [dif_neg h, List.append_assoc, List.singleton_append,
        ih (n / 10) (Nat.div_lt_self (by omega) (by omega)),
        pyDigitos_digito (cifra_isDigit (Nat.mod_lt n (by omega))),
        valCifra_cifra (Nat.mod_lt n (by omega))]
      congr 1
      omega

lemma pyParteDigitos_natCifras (n : Nat) : pyParteDigitos (natCifras n) = some n := by
  have h := pyParteDigitos_natCifras_append n []
  rwa [List.append_nil] at h

/-- int(str(i)) devuelve i: la representación decimal de Python se
vuelve a convertir exactamente. -/
lemma pyInt_intRepr (i : Int) : pyInt (intRepr i) = some i := by
  cases i with
  | ofNat n =>
    show pyInt ⟨natCifras n⟩ = some (Int.ofNat n)
    rcases hnc : natCifras n with _ | ⟨c, resto⟩
    · exact absurd hnc (natCifras_ne_nil n)
    · have hd : c.isDigit = true :=
        natCifras_digitos n c (hnc ▸ List.mem_cons_self c resto)
      show (if c = '+' then (pyParteDigitos resto).map Int.ofNat
        else if c = '-' then (pyParteDigitos resto).map (fun k => -(Int.ofNat k))
        else (pyParteDigitos (c :: resto)).map Int.ofNat) = some (Int.ofNat n)
      rw [if_neg (isDigit_ne_mas hd), if_neg (isDigit_ne_menos hd), ← hnc,
        pyParteDigitos_natCifras]
      rfl
  | negSucc m =>
    show (if '-' = '+' then (pyParteDigitos (natCifras (m + 1))).map Int.ofNat
      else if '-' = '-' then
        (pyParteDigitos (natCifras (m + 1))).map (fun k => -(Int.ofNat k))
      else (pyParteDigitos ('-' :: natCifras (m + 1))).map Int.ofNat) =
        some (Int.negSucc m)
    rw [if_neg (by decide : ¬('-' = '+')), if_pos rfl, pyParteDigitos_natCifras]
    show some (-(Int.ofNat (m + 1))) = some (Int.negSucc m)
    congr 1

lemma dropWhile_eq_self_de {p : Char → Bool} {l : List Char}
    (h : ∀ c ∈ l, p c = false) : l.dropWhile p = l := by
  cases l with
  | nil => rfl
  | cons a l => simp [List.dropWhile_cons, h a (List.mem_cons_self a l)]

lemma recortar_eq_self {s : String} (h : ∀ c ∈ s.data, esEspacio c = false) :
    recortar s = s := by
  unfold recortar
  rw [dropWhile_eq_self_de h,
    dropWhile_eq_self_de (fun c hc => h c (List.mem_reverse.mp hc)),
    List.reverse_reverse]

lemma intRepr_sin_espacios (i : Int) : ∀ c ∈ (intRepr i).data, esEspacio c = false := by
  cases i with
  | ofNat n =>
    intro c hc
    exact isDigit_noEspacio (natCifras_digitos n c hc)
  | negSucc m =>
    intro c hc
    rcases List.mem_cons.mp hc with h1 | h1
    · subst h1; decide
    · exact isDigit_noEspacio (natCifras_digitos (m + 1) c h1)

lemma recortar_intRepr (i : Int) : recortar (intRepr i) = intRepr i :=
  recortar_eq_self (intRepr_sin_espacios i)

lemma intRepr_ne_vacio (i : Int) : intRepr i ≠ "" := by
  intro h
  cases i with
  | ofNat n => exact natCifras_ne_nil n (congrArg String.data h)
  | negSucc m => exact List.cons_ne_nil _ _ (congrArg String.data h)

/-! ### Caracterización del cargador leer_csv -/

lemma procesar_eq_conservada (f : FilaCSV) : procesar_fila f = fila_conservada f := by
  by_cases h1 : recortar f.provincia = "" <;> by_cases h2 : recortar f.colegio = "" <;>
    by_cases h3 : recortar f.cantidad = "" <;> by_cases h4 : recortar f.anio = "" <;>
      cases hc : pyInt (recortar f.cantidad) <;> cases ha : pyInt (recortar f.anio) <;>
        simp [procesar_fila, fila_conservada, fila_valida, num_ok, valor_num,
          h1, h2, h3, h4, hc, ha]

lemma conservada_isNone (f : FilaCSV) :
    (fila_conservada f).isNone = !(fila_valida f) := by
  unfold fila_conservada
  cases hv : fila_valida f <;> simp [hv]

lemma leer_csv_bucle_eq (filas : List FilaCSV) :
    ∀ (acc : List Colegio) (k : Nat),
      leer_csv_bucle filas acc k =
        (acc ++ filas.filterMap procesar_fila,
          k + filas.countP (fun f => (procesar_fila f).isNone)) := by
  induction filas with
  | nil => intro acc k; simp [leer_csv_bucle]
  | cons f resto ih =>
    intro acc k
    cases hp : procesar_fila f with
    | some c =>
      simp only [leer_csv_bucle, hp, ih, List.filterMap_cons, List.countP_cons]
      refine Prod.ext ?_ ?_
      · simp [List.append_assoc]
      · simp [hp]
    | none =>
      simp only [leer_csv_bucle, hp, ih, List.filterMap_cons, List.countP_cons]
      refine Prod.ext ?_ ?_
      · simp
      · simp [hp]; omega

lemma leer_csv_caracteriza (filas : List FilaCSV) :
    leer_csv (some filas) =
      (filas.filterMap fila_conservada, filas.countP (fun f => !(fila_valida f))) := by
  have hfun : procesar_fila = fila_conservada := funext procesar_eq_conservada
  show leer_csv_bucle filas [] 0 = _
  rw [leer_csv_bucle_eq, hfun]
  have hcnt : (fun f => (fila_conservada f).isNone) = fun f => !(fila_valida f) :=
    funext conservada_isNone
  rw [hcnt]
  simp

lemma procesar_escrita {c : Colegio} (h : registro_valido c) :
    procesar_fila ⟨c.provincia, c.colegio, intRepr c.cantidad, intRepr c.anio⟩ = some c := by
  obtain ⟨hp, hpne, hc, hcne⟩ := h
  unfold procesar_fila
  simp only [recortar_intRepr, hp, hc]
  simp [hpne, hcne, intRepr_ne_vacio, pyInt_intRepr]

lemma filterMap_id_de {α : Type} {g : α → Option α} :
    ∀ {l : List α}, (∀ a ∈ l, g a = some a) → l.filterMap g = l := by
  intro l
  induction l with
  | nil => intro _; rfl
  | cons a l ih =>
    intro h
    rw [List.filterMap_cons, h a (List.mem_cons_self a l),
      ih fun b hb => h b (List.mem_cons_of_mem a hb)]

/-- C4: leer_csv conserva exactamente las filas con provincia y colegio
recortados no vacíos y campos numéricos convertibles o ausentes (con 0
por defecto); cada otra fila se descarta y se cuenta, el contador de
filas omitidas se informa aparte de la colección, y un archivo
inexistente da la colección vacía sin error. En particular, con las
filas (Córdoba, Colegio A, 350, 1985) y (cordoba, Colegio B,
not-a-number, 1990) el resultado contiene solo la primera y el contador
vale 1. -/
theorem leer_csv_filtra_y_cuenta :
    (∀ filas : List FilaCSV,
        (leer_csv (some filas)).1 = filas.filterMap fila_conservada ∧
          (leer_csv (some filas)).2 = filas.countP (fun f => !(fila_valida f))) ∧
      leer_csv none = ([], 0) ∧
      leer_csv (some [⟨"Córdoba", "Colegio A", "350", "1985"⟩,
          ⟨"cordoba", "Colegio B", "not-a-number", "1990"⟩]) =
        ([⟨"Córdoba", "Colegio A", 350, 1985⟩], 1) := by
  refine ⟨fun filas => ?_, rfl, by decide⟩
  rw [leer_csv_caracteriza]
  exact ⟨rfl, rfl⟩

/-- C3: para toda colección de registros válidos (provincia y nombre no
vacíos y ya recortados; los campos numéricos son enteros por
construcción), leer el CSV tras escribirlo reproduce exactamente la
misma colección, sin filas omitidas. -/
theorem ida_y_vuelta_csv (cs : List Colegio) (h : ∀ c ∈ cs, registro_valido c) :
    leer_csv (some (filas_escritas cs)) = (cs, 0) := by
  show leer_csv_bucle (filas_escritas cs) [] 0 = (cs, 0)
  rw [leer_csv_bucle_eq]
  unfold filas_escritas
  rw [List.filterMap_map, List.countP_map]
  refine Prod.ext ?_ ?_
  · show [] ++ List.filterMap _ cs = cs
    rw [List.nil_append]
    refine filterMap_id_de fun c hc => ?_
    exact procesar_escrita (h c hc)
  · show 0 + List.countP _ cs = 0
    rw [Nat.zero_add, List.countP_eq_zero]
    intro c hc
    simp [Function.comp, procesar_escrita (h c hc)]

theorem ida_y_vuelta_csv_testigo :
    (∀ c ∈ ([⟨"Córdoba", "Colegio A", 350, 1985⟩,
        ⟨"Buenos Aires", "Escuela Sur", 720, 1960⟩] : List Colegio), registro_valido c) ∧
      leer_csv (some (filas_escritas [⟨"Córdoba", "Colegio A", 350, 1985⟩,
          ⟨"Buenos Aires", "Escuela Sur", 720, 1960⟩])) =
        ([⟨"Córdoba", "Colegio A", 350, 1985⟩,
          ⟨"Buenos Aires", "Escuela Sur", 720, 1960⟩], 0) :=
  ⟨by decide, ida_y_vuelta_csv _ (by decide)⟩

/-- C8 (contraejemplo): el cargador acepta filas cuyo año queda fuera
del rango 1800–2100 y cuya cantidad es negativa; la fila
(Salta, Colegio X, -5, 150) se carga con cantidad -5 y año 150. -/
theorem cargador_rango_contraejemplo :
    ∃ c ∈ (leer_csv (some [⟨"Salta", "Colegio X", "-5", "150"⟩])).1,
      ¬(0 ≤ c.cantidad ∧ 1800 ≤ c.anio ∧ c.anio ≤ 2100) := by decide

/-- C8 (enmendada): todo registro devuelto por el cargador tiene
provincia y colegio no vacíos (y campos numéricos enteros por
construcción); el cargador no garantiza los rangos numéricos del modelo
de datos. -/
theorem cargador_garantiza_obligatorios (filas : List FilaCSV) (c : Colegio)
    (h : c ∈ (leer_csv (some filas)).1) : c.provincia ≠ "" ∧ c.colegio ≠ "" := by
  rw [leer_csv_caracteriza] at h
  have h2 : c ∈ filas.filterMap fila_conservada := h
  obtain ⟨f, _, hc⟩ := List.mem_filterMap.mp h2
  unfold fila_conservada at hc
  by_cases hv : fila_valida f
  · rw [if_pos hv] at hc
    have hval := hv
    unfold fila_valida at hval
    simp only [Bool.and_eq_true, Bool.not_eq_true', decide_eq_false_iff_not] at hval
    injection hc with hc
    subst hc
    exact ⟨hval.1.1.1, hval.1.1.2⟩
  · rw [if_neg hv] at hc
    exact absurd hc (by simp)

theorem cargador_garantiza_obligatorios_testigo :
    (⟨"Salta", "Colegio X", 10, 1999⟩ : Colegio) ∈
        (leer_csv (some [⟨" Salta ", "Colegio X", "10", "1999"⟩])).1 ∧
      ((⟨"Salta", "Colegio X", 10, 1999⟩ : Colegio).provincia ≠ "" ∧
        (⟨"Salta", "Colegio X", 10, 1999⟩ : Colegio).colegio ≠ "") :=
  ⟨by decide, cargador_garantiza_obligatorios
    [⟨" Salta ", "Colegio X", "10", "1999"⟩] ⟨"Salta", "Colegio X", 10, 1999⟩
    (by decide)⟩

/-! ### Proyector jerárquico (jerarquia.py) -/

/-- limpiar_nombre_archivo (jerarquia.py líneas 55–72): reemplaza los
caracteres problemáticos por guiones, recorta, y usa SinNombre si el
resultado queda vacío. -/
def limpiar_nombre_archivo (nombre : String) : String :=
  let reemplazado : String := ⟨nombre.data.map (fun c =>
    if c = '/' || c = '\\' || c = ':' || c = '*' || c = '?' || c = '"' ||
        c = '<' || c = '>' || c = '|' then '-' else c)⟩
  let recortado := recortar reemplazado
  if recortado = "" then "SinNombre" else recortado

/-- Rango de estudiantes (jerarquia.py líneas 131–138). -/
def rango_estudiantes (estudiantes : Int) : String :=
  if estudiantes < 300 then "Menos_300"
  else if estudiantes < 500 then "300_499"
  else if estudiantes < 700 then "500_699"
  else "700_o_mas"

/-- Década de creación (jerarquia.py líneas 180–189). -/
def decada_anio (anio : Int) : String :=
  if anio < 1970 then "Antes_1970"
  else if anio < 1980 then "1970_1979"
  else if anio < 1990 then "1980_1989"
  else if anio < 2000 then "1990_1999"
  else "2000_o_despues"

/-- Paso de inserción de una clave de diccionario: se añade al final
solo si aún no está. -/
def primeras_paso (acc : List String) (k : String) : List String :=
  if k ∈ acc then acc else acc ++ [k]

/-- Claves de un diccionario de Python en orden de inserción: la primera
aparición de cada valor, en orden. -/
def primeras (l : List String) : List String :=
  l.foldl primeras_paso []

/-- Claves de agrupación de una colección, en orden de primera
aparición (el orden de iteración del diccionario de agrupación). -/
def claves (cs : List Colegio) (clave : Colegio → String) : List String :=
  primeras (cs.map clave)

/-- Escrituras de archivo que realiza una pasada de organizar_por_*
(jerarquia.py líneas 87–110 y análogas): para cada clave del
diccionario, en orden de inserción, escribe el archivo
limpiar_nombre_archivo(clave) + .csv con el grupo completo de esa
clave, sobrescribiendo cualquier archivo previo de ese nombre. -/
def archivos_de (cs : List Colegio) (clave : Colegio → String) :
    List (String × List Colegio) :=
  (claves cs clave).map (fun k =>
    (limpiar_nombre_archivo k ++ ".csv", cs.filter (fun c => clave c = k)))

def organizar_por_provincia (cs : List Colegio) : List (String × List Colegio) :=
  archivos_de cs (fun c => c.provincia)

def organizar_por_estudiantes (cs : List Colegio) : List (String × List Colegio) :=
  archivos_de cs (fun c => rango_estudiantes c.cantidad)

def organizar_por_anio (cs : List Colegio) : List (String × List Colegio) :=
  archivos_de cs (fun c => decada_anio c.anio)

/-- Contenido final de un archivo tras aplicar en orden una lista de
escrituras (la última escritura con ese nombre gana), partiendo de un
contenido inicial. -/
def contenido_desde (dir : List (String × List Colegio)) (f : String)
    (acc : List Colegio) : List Colegio :=
  match dir with
  | [] => acc
  | e :: resto => contenido_desde resto f (if e.1 = f then e.2 else acc)

/-- Contenido final de un archivo del subdirectorio: vacío si ninguna
escritura lo tocó. -/
def contenido_final (dir : List (String × List Colegio)) (f : String) : List Colegio :=
  contenido_desde dir f []

/-- Nombres de archivo presentes tras las escrituras, sin repetición. -/
def nombres_finales (dir : List (String × List Colegio)) : List String :=
  primeras (dir.map Prod.fst)

/-- Todos los registros presentes en los archivos del subdirectorio,
concatenando el contenido final de cada nombre de archivo. -/
def union_directorio (dir : List (String × List Colegio)) : List Colegio :=
  (nombres_finales dir).flatMap (fun f => contenido_final dir f)

/-- Estado en disco de los tres subárboles de la estructura jerárquica:
las escrituras acumuladas en cada uno. -/
structure EstadoJerarquico where
  por_provincia : List (String × List Colegio)
  por_estudiantes : List (String × List Colegio)
  por_anio : List (String × List Colegio)

/-- sincronizar_estructura_jerarquica (jerarquia.py líneas 213–231):
agrega a cada subárbol las escrituras de la pasada de organización
correspondiente; los archivos previos solo cambian si una escritura
nueva lleva su mismo nombre. -/
def sincronizar_estructura_jerarquica (st : EstadoJerarquico) (cs : List Colegio) :
    EstadoJerarquico :=
  ⟨st.por_provincia ++ organizar_por_provincia cs,
    st.por_estudiantes ++ organizar_por_estudiantes cs,
    st.por_anio ++ organizar_por_anio cs⟩

/-! ### Lemas de partición del proyector jerárquico -/

lemma primeras_aux_mem : ∀ (l acc : List String) (a : String),
    (a ∈ l.foldl primeras_paso acc ↔ a ∈ acc ∨ a ∈ l) := by
  intro l
  induction l with
  | nil => simp
  | cons k resto ih =>
    intro acc a
    rw [List.foldl_cons, ih]
    unfold primeras_paso
    by_cases hk : k ∈ acc
    · rw [if_pos hk]
      by_cases hak : a = k <;> simp [hak, hk]
    · rw [if_neg hk]
      simp [List.mem_append, List.mem_cons, or_assoc]

lemma mem_primeras (l : List String) (a : String) : a ∈ primeras l ↔ a ∈ l := by
  unfold primeras
  rw [primeras_aux_mem]
  simp

lemma primeras_aux_nodup : ∀ (l acc : List String), acc.Nodup →
    (l.foldl primeras_paso acc).Nodup := by
  intro l
  induction l with
  | nil => intro acc h; simpa using h
  | cons k resto ih =>
    intro acc hnd
    rw [List.foldl_cons]
    refine ih _ ?_
    unfold primeras_paso
    by_cases hk : k ∈ acc
    · rwa [if_pos hk]
    · rw [if_neg hk, List.nodup_append]
      refine ⟨hnd, List.nodup_singleton k, ?_⟩
      intro a ha hb
      rw [List.mem_singleton] at hb
      subst hb
      exact hk ha

lemma nodup_primeras (l : List String) : (primeras l).Nodup :=
  primeras_aux_nodup l [] (by simp)

lemma primeras_aux_id : ∀ (l acc : List String), l.Nodup → (∀ a ∈ l, a ∉ acc) →
    l.foldl primeras_paso acc = acc ++ l := by
  intro l
  induction l with
  | nil => intro acc _ _; simp
  | cons k resto ih =>
    intro acc hnd hdisj
    rw [List.nodup_cons] at hnd
    rw [List.foldl_cons]
    have hpaso : primeras_paso acc k = acc ++ [k] :=
      if_neg (hdisj k (List.mem_cons_self k resto))
    rw [hpaso, ih (acc ++ [k]) hnd.2 ?_, List.append_assoc, List.singleton_append]
    intro a ha hmem
    rcases List.mem_append.mp hmem with h1 | h1
    · exact hdisj a (List.mem_cons_of_mem k ha) h1
    · rw [List.mem_singleton] at h1
      exact hnd.1 (h1 ▸ ha)

lemma primeras_nodup_id : ∀ {l : List String}, l.Nodup → primeras l = l := by
  intro l h
  unfold primeras
  rw [primeras_aux_id l [] h (by simp)]
  simp

lemma contenido_desde_no_mem :
    ∀ (dir : List (String × List Colegio)) (f : String) (acc : List Colegio),
      f ∉ dir.map Prod.fst → contenido_desde dir f acc = acc := by
  intro dir
  induction dir with
  | nil => intro f acc _; rfl
  | cons e resto ih =>
    intro f acc hf
    rw [List.map_cons, List.mem_cons] at hf
    push_neg at hf
    rw [contenido_desde, if_neg (fun he => hf.1 he.symm), ih f acc hf.2]

lemma contenido_desde_unico :
    ∀ (dir : List (String × List Colegio)) (f : String) (v : List Colegio),
      (dir.map Prod.fst).Nodup → (f, v) ∈ dir →
        ∀ acc, contenido_desde dir f acc = v := by
  intro dir
  induction dir with
  | nil => intro f v _ hm; exact absurd hm (List.not_mem_nil _)
  | cons e resto ih =>
    intro f v hnd hm acc
    rw [List.map_cons, List.nodup_cons] at hnd
    rcases List.mem_cons.mp hm with he | he
    · subst he
      rw [contenido_desde, if_pos rfl]
      exact contenido_desde_no_mem resto f v hnd.1
    · rw [contenido_desde]
      exact ih f v hnd.2 he _

lemma flatMap_congr_mem {α β : Type} {l : List α} {f g : α → List β}
    (h : ∀ a ∈ l, f a = g a) : l.flatMap f = l.flatMap g := by
  induction l with
  | nil => rfl
  | cons a l ih =>
    rw [List.flatMap_cons, List.flatMap_cons, h a (List.mem_cons_self a l),
      ih fun b hb => h b (List.mem_cons_of_mem a hb)]

lemma countP_congr_mem {α : Type} {l : List α} {p q : α → Bool}
    (h : ∀ a ∈ l, p a = q a) : l.countP p = l.countP q := by
  induction l with
  | nil => rfl
  | cons a l ih =>
    rw [List.countP_cons, List.countP_cons, h a (List.mem_cons_self a l),
      ih fun b hb => h b (List.mem_cons_of_mem a hb)]

lemma countP_eq_one_de : ∀ (ks : List String), ks.Nodup → ∀ x ∈ ks,
    ks.countP (fun k => decide (x = k)) = 1 := by
  intro ks
  induction ks with
  | nil => intro _ x hx; exact absurd hx (List.not_mem_nil _)
  | cons k resto ih =>
    intro hnd x hx
    rw [List.nodup_cons] at hnd
    rw [List.countP_cons]
    rcases List.mem_cons.mp hx with he | he
    · subst he
      have hz : resto.countP (fun k => decide (x = k)) = 0 := by
        rw [List.countP_eq_zero]
        intro a ha hxa
        rw [decide_eq_true_eq] at hxa
        exact hnd.1 (hxa ▸ ha)
      simp [hz]
    · have hxk : ¬(x = k) := fun he2 => hnd.1 (he2 ▸ he)
      simp [ih hnd.2 x he, hxk]

lemma claves_nodup (cs : List Colegio) (clave : Colegio → String) :
    (claves cs clave).Nodup :=
  nodup_primeras _

lemma mem_claves_de {cs : List Colegio} {clave : Colegio → String} {c : Colegio}
    (hc : c ∈ cs) : clave c ∈ claves cs clave :=
  (mem_primeras _ _).mpr (List.mem_map_of_mem clave hc)

lemma exists_de_claves {cs : List Colegio} {clave : Colegio → String} {k : String}
    (hk : k ∈ claves cs clave) : ∃ c ∈ cs, clave c = k :=
  List.mem_map.mp ((mem_primeras _ _).mp hk)

lemma count_flatMap_filter (cs : List Colegio) (clave : Colegio → String) :
    ∀ ks : List String, ks.Nodup → ∀ a : Colegio,
      (ks.flatMap fun k => cs.filter (fun c => decide (clave c = k))).count a =
        if clave a ∈ ks then cs.count a else 0 := by
  intro ks
  induction ks with
  | nil => intro _ a; simp
  | cons k resto ih =>
    intro hnd a
    rw [List.nodup_cons] at hnd
    rw [List.flatMap_cons, List.count_append, ih hnd.2 a]
    by_cases hk : clave a = k
    · have h1 : (cs.filter (fun c => decide (clave c = k))).count a = cs.count a :=
        List.count_filter (by simp [hk])
      have h2 : clave a ∉ resto := by
        rw [hk]
        exact hnd.1
      rw [h1, if_neg h2, if_pos (by rw [hk]; exact List.mem_cons_self k resto)]
      omega
    · have h1 : (cs.filter (fun c => decide (clave c = k))).count a = 0 := by
        rw [List.count_eq_zero]
        intro hmem
        rw [List.mem_filter] at hmem
        exact hk (by simpa using hmem.2)
      rw [h1, Nat.zero_add]
      congr 1
      simp [List.mem_cons, hk]

/-- Lema central: si los nombres de archivo saneados de las claves
presentes no chocan entre sí, una pasada de organización particiona la
colección: la unión de los archivos es una permutación de la colección
y cada registro de la colección está en exactamente un archivo. -/
lemma particion_de (cs : List Colegio) (clave : Colegio → String)
    (Hinj : ∀ k1 ∈ claves cs clave, ∀ k2 ∈ claves cs clave,
      limpiar_nombre_archivo k1 ++ ".csv" = limpiar_nombre_archivo k2 ++ ".csv" → k1 = k2) :
    (union_directorio (archivos_de cs clave)).Perm cs ∧
      ∀ c ∈ cs, (nombres_finales (archivos_de cs clave)).countP
        (fun f => decide (c ∈ contenido_final (archivos_de cs clave) f)) = 1 := by
  have hksnd : (claves cs clave).Nodup := claves_nodup cs clave
  have hmn2 : ((claves cs clave).map
      (fun k => limpiar_nombre_archivo k ++ ".csv")).Nodup :=
    hksnd.map_on Hinj
  have hfst : (archivos_de cs clave).map Prod.fst =
      (claves cs clave).map (fun k => limpiar_nombre_archivo k ++ ".csv") := by
    unfold archivos_de
    rw [List.map_map]
    rfl
  have hmapnd : ((archivos_de cs clave).map Prod.fst).Nodup := by
    rw [hfst]
    exact hmn2
  have hnombres : nombres_finales (archivos_de cs clave) =
      (claves cs clave).map (fun k => limpiar_nombre_archivo k ++ ".csv") := by
    unfold nombres_finales
    rw [hfst, primeras_nodup_id hmn2]
  have hcont : ∀ k ∈ claves cs clave,
      contenido_final (archivos_de cs clave) (limpiar_nombre_archivo k ++ ".csv") =
        cs.filter (fun c => decide (clave c = k)) := by
    intro k hk
    unfold contenido_final
    refine contenido_desde_unico _ _ _ hmapnd ?_ []
    unfold archivos_de
    exact List.mem_map.mpr ⟨k, hk, rfl⟩
  have hunion : union_directorio (archivos_de cs clave) =
      (claves cs clave).flatMap (fun k => cs.filter (fun c => decide (clave c = k))) := by
    unfold union_directorio
    rw [hnombres, List.flatMap_map]
    exact flatMap_congr_mem fun k hk => hcont k hk
  constructor
  · rw [hunion, List.perm_iff_count]
    intro a
    rw [count_flatMap_filter cs clave _ hksnd a]
    by_cases hm : clave a ∈ claves cs clave
    · rw [if_pos hm]
    · rw [if_neg hm]
      symm
      rw [List.count_eq_zero]
      intro ha
      exact hm (mem_claves_de ha)
  · intro c hc
    rw [hnombres, List.countP_map]
    have hpred : ∀ k ∈ claves cs clave,
        ((fun f => decide (c ∈ contenido_final (archivos_de cs clave) f)) ∘
          fun k => limpiar_nombre_archivo k ++ ".csv") k = decide (clave c = k) := by
      intro k hk
      simp only [Function.comp]
      rw [hcont k hk]
      refine decide_eq_decide.mpr ?_
      rw [List.mem_filter]
      simp [hc]
    rw [countP_congr_mem hpred]
    exact countP_eq_one_de _ hksnd (clave c) (mem_claves_de hc)

lemma rango_mem (e : Int) : rango_estudiantes e ∈
    (["Menos_300", "300_499", "500_699", "700_o_mas"] : List String) := by
  unfold rango_estudiantes
  split_ifs <;> simp

lemma decada_mem (a : Int) : decada_anio a ∈
    (["Antes_1970", "1970_1979", "1980_1989", "1990_1999",
      "2000_o_despues"] : List String) := by
  unfold decada_anio
  split_ifs <;> simp

lemma quitar_sufijo_csv {a b : String} (h : a ++ ".csv" = b ++ ".csv") : a = b := by
  have hd := congrArg String.data h
  rw [String.data_append, String.data_append] at hd
  exact String.ext (List.append_cancel_right hd)

lemma inj_nombres_rango (cs : List Colegio) :
    ∀ k1 ∈ claves cs (fun c => rango_estudiantes c.cantidad),
      ∀ k2 ∈ claves cs (fun c => rango_estudiantes c.cantidad),
        limpiar_nombre_archivo k1 ++ ".csv" = limpiar_nombre_archivo k2 ++ ".csv" →
          k1 = k2 := by
  intro k1 h1 k2 h2 he
  obtain ⟨c1, _, rfl⟩ := exists_de_claves h1
  obtain ⟨c2, _, rfl⟩ := exists_de_claves h2
  have hm1 := rango_mem c1.cantidad
  have hm2 := rango_mem c2.cantidad
  simp only [List.mem_cons, List.not_mem_nil, or_false] at hm1 hm2
  rcases hm1 with h | h | h | h <;> rcases hm2 with g | g | g | g <;>
    rw [h, g] at he ⊢ <;> first | rfl | exact absurd he (by decide)

lemma inj_nombres_decada (cs : List Colegio) :
    ∀ k1 ∈ claves cs (fun c => decada_anio c.anio),
      ∀ k2 ∈ claves cs (fun c => decada_anio c.anio),
        limpiar_nombre_archivo k1 ++ ".csv" = limpiar_nombre_archivo k2 ++ ".csv" →
          k1 = k2 := by
  intro k1 h1 k2 h2 he
  obtain ⟨c1, _, rfl⟩ := exists_de_claves h1
  obtain ⟨c2, _, rfl⟩ := exists_de_claves h2
  have hm1 := decada_mem c1.anio
  have hm2 := decada_mem c2.anio
  simp only [List.mem_cons, List.not_mem_nil, or_false] at hm1 hm2
  rcases hm1 with h | h | h | h | h <;> rcases hm2 with g | g | g | g | g <;>
    rw [h, g] at he ⊢ <;> first | rfl | exact absurd he (by decide)

/-- C2 (contraejemplo): con dos provincias distintas cuyo saneado
coincide (A/B y A:B dan ambas el archivo A-B.csv), la segunda escritura
sobrescribe la primera: tras sincronizar sobre un árbol vacío, la unión
de los archivos por provincia solo contiene el segundo registro y el
primer registro no aparece en ningún archivo. -/
theorem sincronizar_contraejemplo :
    union_directorio (sincronizar_estructura_jerarquica ⟨[], [], []⟩
        [⟨"A/B", "Colegio Uno", 10, 1990⟩,
          ⟨"A:B", "Colegio Dos", 20, 1995⟩]).por_provincia =
      [⟨"A:B", "Colegio Dos", 20, 1995⟩] ∧
    (nombres_finales (sincronizar_estructura_jerarquica ⟨[], [], []⟩
        [⟨"A/B", "Colegio Uno", 10, 1990⟩,
          ⟨"A:B", "Colegio Dos", 20, 1995⟩]).por_provincia).countP
      (fun f => decide ((⟨"A/B", "Colegio Uno", 10, 1990⟩ : Colegio) ∈
        contenido_final (sincronizar_estructura_jerarquica ⟨[], [], []⟩
          [⟨"A/B", "Colegio Uno", 10, 1990⟩,
            ⟨"A:B", "Colegio Dos", 20, 1995⟩]).por_provincia f)) = 0 := by
  decide

/-- C2 (enmendada): tras sincronizar sobre un árbol de subgrupos vacío,
y siempre que los nombres de archivo saneados de dos provincias
distintas de la colección no coincidan, cada registro aparece en
exactamente un archivo por dimensión de agrupación y la unión de los
archivos de cada dimensión es una permutación de la colección; para las
dimensiones por rango de estudiantes y por década esto vale sin
condición alguna. -/
theorem sincronizar_particiona (cs : List Colegio)
    (Hinj : ∀ c1 ∈ cs, ∀ c2 ∈ cs,
      limpiar_nombre_archivo c1.provincia = limpiar_nombre_archivo c2.provincia →
        c1.provincia = c2.provincia) :
    ((union_directorio
        (sincronizar_estructura_jerarquica ⟨[], [], []⟩ cs).por_provincia).Perm cs ∧
      ∀ c ∈ cs,
        (nombres_finales
            (sincronizar_estructura_jerarquica ⟨[], [], []⟩ cs).por_provincia).countP
          (fun f => decide (c ∈ contenido_final
            (sincronizar_estructura_jerarquica ⟨[], [], []⟩ cs).por_provincia f)) = 1) ∧
    ((union_directorio
        (sincronizar_estructura_jerarquica ⟨[], [], []⟩ cs).por_estudiantes).Perm cs ∧
      ∀ c ∈ cs,
        (nombres_finales
            (sincronizar_estructura_jerarquica ⟨[], [], []⟩ cs).por_estudiantes).countP
          (fun f => decide (c ∈ contenido_final
            (sincronizar_estructura_jerarquica ⟨[], [], []⟩ cs).por_estudiantes f)) = 1) ∧
    ((union_directorio
        (sincronizar_estructura_jerarquica ⟨[], [], []⟩ cs).por_anio).Perm cs ∧
      ∀ c ∈ cs,
        (nombres_finales
            (sincronizar_estructura_jerarquica ⟨[], [], []⟩ cs).por_anio).countP
          (fun f => decide (c ∈ contenido_final
            (sincronizar_estructura_jerarquica ⟨[], [], []⟩ cs).por_anio f)) = 1) := by
  refine ⟨?_, ?_, ?_⟩
  · show (union_directorio (archivos_de cs (fun c => c.provincia))).Perm cs ∧ _
    refine particion_de cs (fun c => c.provincia) ?_
    intro k1 h1 k2 h2 he
    obtain ⟨c1, hc1, rfl⟩ := exists_de_claves h1
    obtain ⟨c2, hc2, rfl⟩ := exists_de_claves h2
    exact Hinj c1 hc1 c2 hc2 (quitar_sufijo_csv he)
  · show (union_directorio (archivos_de cs (fun c => rango_estudiantes c.cantidad))).Perm cs ∧ _
    exact particion_de cs (fun c => rango_estudiantes c.cantidad) (inj_nombres_rango cs)
  · show (union_directorio (archivos_de cs (fun c => decada_anio c.anio))).Perm cs ∧ _
    exact particion_de cs (fun c => decada_anio c.anio) (inj_nombres_decada cs)

theorem sincronizar_particiona_testigo :
    (∀ c1 ∈ ([⟨"Córdoba", "Colegio A", 350, 1985⟩,
        ⟨"Buenos Aires", "Escuela Sur", 720, 1960⟩] : List Colegio),
      ∀ c2 ∈ ([⟨"Córdoba", "Colegio A", 350, 1985⟩,
          ⟨"Buenos Aires", "Escuela Sur", 720, 1960⟩] : List Colegio),
        limpiar_nombre_archivo c1.provincia = limpiar_nombre_archivo c2.provincia →
          c1.provincia = c2.provincia) ∧
      (union_directorio (sincronizar_estructura_jerarquica ⟨[], [], []⟩
          [⟨"Córdoba", "Colegio A", 350, 1985⟩,
            ⟨"Buenos Aires", "Escuela Sur", 720, 1960⟩]).por_provincia).Perm
        [⟨"Córdoba", "Colegio A", 350, 1985⟩,
          ⟨"Buenos Aires", "Escuela Sur", 720, 1960⟩] :=
  ⟨by decide,
    (sincronizar_particiona
      [⟨"Córdoba", "Colegio A", 350, 1985⟩,
        ⟨"Buenos Aires", "Escuela Sur", 720, 1960⟩] (by decide)).1.1⟩

/-! ### Motor de consultas: normalización y búsqueda (busqueda.py) -/

/-- Modelo de str.lower() de Python para el repertorio latino del
dominio: minúsculas ASCII más las vocales acentuadas y la eñe
mayúsculas. -/
def bajar (c : Char) : Char :=
  if c = 'Á' then 'á' else if c = 'É' then 'é' else if c = 'Í' then 'í'
  else if c = 'Ó' then 'ó' else if c = 'Ú' then 'ú' else if c = 'Ü' then 'ü'
  else if c = 'Ñ' then 'ñ' else c.toLower

/-- Modelo de la descomposición NFD seguida del filtrado de marcas
diacríticas (categoría Mn) para el repertorio latino del dominio: cada
letra minúscula acentuada pasa a su letra base. -/
def quitarAcento (c : Char) : Char :=
  if c = 'á' then 'a' else if c = 'é' then 'e' else if c = 'í' then 'i'
  else if c = 'ó' then 'o' else if c = 'ú' then 'u' else if c = 'ü' then 'u'
  else if c = 'ñ' then 'n' else c

/-- normalizar (utilidades.py líneas 16–30): cadena vacía intacta; si
no, minúsculas, recorte de espacios y eliminación de acentos. -/
def normalizar (s : String) : String :=
  if s = "" then ""
  else
    let minusculas : String := ⟨s.data.map bajar⟩
    let recortado := recortar minusculas
    ⟨recortado.data.map quitarAcento⟩

/-- Pertenencia de subcadena contigua sobre listas de caracteres. -/
def contieneLista (sub : List Char) : List Char → Bool
  | [] => sub.isEmpty
  | c :: resto => sub.isPrefixOf (c :: resto) || contieneLista sub resto

/-- Modelo del operador in de Python sobre cadenas: la primera cadena
aparece contigua dentro de la segunda. -/
def contiene (sub s : String) : Bool :=
  contieneLista sub.data s.data

/-- buscar_colegio_recursivo (busqueda.py líneas 8–38): recorre la
lista acumulando, en orden, los registros cuyo nombre normalizado
contiene el texto normalizado. -/
def buscar_colegio_recursivo (colegios : List Colegio) (nombre : String)
    (resultados : List Colegio) : List Colegio :=
  match colegios with
  | [] => resultados
  | c :: resto =>
    buscar_colegio_recursivo resto nombre
      (if contiene (normalizar nombre) (normalizar c.colegio) then resultados ++ [c]
       else resultados)

/-- buscar_colegio (busqueda.py líneas 41–72): lista o texto vacíos dan
el resultado vacío; si no, delega en la búsqueda recursiva. -/
def buscar_colegio (colegios : List Colegio) (nombre : String) : List Colegio :=
  if colegios.isEmpty || nombre = "" then []
  else buscar_colegio_recursivo colegios nombre []

/-- filtrar_por_rango_estudiantes (busqueda.py líneas 103–128). -/
def filtrar_por_rango_estudiantes (colegios : List Colegio)
    (minimo maximo : Int) : List Colegio :=
  if colegios.isEmpty then []
  else colegios.filter (fun c => minimo ≤ c.cantidad && c.cantidad ≤ maximo)

/-- filtrar_por_rango_anio (busqueda.py líneas 131–156). -/
def filtrar_por_rango_anio (colegios : List Colegio)
    (minimo maximo : Int) : List Colegio :=
  if colegios.isEmpty then []
  else colegios.filter (fun c => minimo ≤ c.anio && c.anio ≤ maximo)

lemma buscar_recursivo_eq (nombre : String) :
    ∀ (colegios : List Colegio) (resultados : List Colegio),
      buscar_colegio_recursivo colegios nombre resultados =
        resultados ++ colegios.filter
          (fun c => contiene (normalizar nombre) (normalizar c.colegio)) := by
  intro colegios
  induction colegios with
  | nil => intro resultados; simp [buscar_colegio_recursivo]
  | cons c resto ih =>
    intro resultados
    rw [buscar_colegio_recursivo, ih, List.filter_cons]
    by_cases hc : contiene (normalizar nombre) (normalizar c.colegio)
    · rw [if_pos hc, if_pos hc, List.append_assoc, List.singleton_append]
    · rw [if_neg hc, if_neg hc]

/-- C5: buscar_colegio devuelve exactamente los registros, en su orden
original, cuyo nombre normalizado contiene la consulta normalizada como
subcadena; con consulta vacía o colección vacía el resultado es vacío.
En particular, buscar colegio entre Colegio A y ESCUELA B devuelve solo
el primero, sin distinguir mayúsculas ni acentos. -/
theorem buscar_colegio_filtra :
    (∀ (colegios : List Colegio) (nombre : String),
      buscar_colegio colegios nombre =
        if colegios.isEmpty || nombre = "" then []
        else colegios.filter
          (fun c => contiene (normalizar nombre) (normalizar c.colegio))) ∧
      buscar_colegio [⟨"Córdoba", "Colegio A", 350, 1985⟩,
          ⟨"Salta", "ESCUELA B", 200, 1970⟩] "colegio" =
        [⟨"Córdoba", "Colegio A", 350, 1985⟩] ∧
      buscar_colegio [⟨"Córdoba", "Colegio A", 350, 1985⟩] "" = [] ∧
      buscar_colegio [] "colegio" = [] := by
  refine ⟨fun colegios nombre => ?_, by decide, by decide, by decide⟩
  unfold buscar_colegio
  by_cases h : colegios.isEmpty || nombre = ""
  · rw [if_pos h, if_pos h]
  · rw [if_neg h, if_neg h, buscar_recursivo_eq, List.nil_append]

/-- C6: los filtros por rango numérico devuelven exactamente los
registros con min ≤ v ≤ max, inclusivo en ambos extremos; con
min > max el resultado es siempre la lista vacía y nunca un error. -/
theorem filtrar_rangos_inclusivos :
    (∀ (colegios : List Colegio) (minimo maximo : Int),
      filtrar_por_rango_estudiantes colegios minimo maximo =
        colegios.filter
          (fun c => decide (minimo ≤ c.cantidad ∧ c.cantidad ≤ maximo))) ∧
      (∀ (colegios : List Colegio) (minimo maximo : Int),
        filtrar_por_rango_anio colegios minimo maximo =
          colegios.filter
            (fun c => decide (minimo ≤ c.anio ∧ c.anio ≤ maximo))) ∧
      ∀ (colegios : List Colegio) (minimo maximo : Int), minimo > maximo →
        filtrar_por_rango_estudiantes colegios minimo maximo = [] ∧
          filtrar_por_rango_anio colegios minimo maximo = [] := by
  have he : ∀ (colegios : List Colegio) (minimo maximo : Int),
      filtrar_por_rango_estudiantes colegios minimo maximo =
        colegios.filter
          (fun c => decide (minimo ≤ c.cantidad ∧ c.cantidad ≤ maximo)) := by
    intro colegios minimo maximo
    unfold filtrar_por_rango_estudiantes
    cases colegios with
    | nil => simp
    | cons c resto =>
      rw [if_neg (by simp)]
      simp only [Bool.decide_and]
  have ha : ∀ (colegios : List Colegio) (minimo maximo : Int),
      filtrar_por_rango_anio colegios minimo maximo =
        colegios.filter (fun c => decide (minimo ≤ c.anio ∧ c.anio ≤ maximo)) := by
    intro colegios minimo maximo
    unfold filtrar_por_rango_anio
    cases colegios with
    | nil => simp
    | cons c resto =>
      rw [if_neg (by simp)]
      simp only [Bool.decide_and]
  refine ⟨he, ha, fun colegios minimo maximo hmm => ⟨?_, ?_⟩⟩
  · rw [he, List.filter_eq_nil_iff]
    intro c _
    simp only [decide_eq_true_eq]
    omega
  · rw [ha, List.filter_eq_nil_iff]
    intro c _
    simp only [decide_eq_true_eq]
    omega

theorem filtrar_rangos_inclusivos_testigo :
    (5 : Int) > 3 ∧
      filtrar_por_rango_estudiantes [⟨"Salta", "Colegio X", 400, 1990⟩] 5 3 = [] ∧
      filtrar_por_rango_anio [⟨"Salta", "Colegio X", 400, 1990⟩] 5 3 = [] :=
  ⟨by decide,
    (filtrar_rangos_inclusivos.2.2 [⟨"Salta", "Colegio X", 400, 1990⟩] 5 3 (by decide)).1,
    (filtrar_rangos_inclusivos.2.2 [⟨"Salta", "Colegio X", 400, 1990⟩] 5 3 (by decide)).2⟩

/-! ### Estadísticas (estadisticas.py) -/

/-- Modelo de min(lista, key=...) de Python: recorre de izquierda a
derecha y reemplaza solo cuando la clave es estrictamente menor, de
modo que gana la primera aparición del mínimo. -/
def pyMinBy (clave : Colegio → Int) (inicial : Colegio) : List Colegio → Colegio
  | [] => inicial
  | x :: resto => pyMinBy clave (if clave x < clave inicial then x else inicial) resto

/-- Modelo de max(lista, key=...) de Python: reemplaza solo cuando la
clave es estrictamente mayor, de modo que gana la primera aparición del
máximo. -/
def pyMaxBy (clave : Colegio → Int) (inicial : Colegio) : List Colegio → Colegio
  | [] => inicial
  | x :: resto => pyMaxBy clave (if clave inicial < clave x then x else inicial) resto

/-- sumar_estudiantes_recursivo (estadisticas.py líneas 36–56). -/
def sumar_estudiantes_recursivo : List Colegio → Int
  | [] => 0
  | c :: resto => c.cantidad + sumar_estudiantes_recursivo resto

/-- Promedio de año de creación (estadisticas.py líneas 77–79): media
de los años positivos, 0 si no hay ninguno; el cociente flotante se
modela con un racional exacto. -/
def promedio_anio_de (colegios : List Colegio) : Rat :=
  if ((colegios.filter (fun x => decide (0 < x.anio))).map (fun x => x.anio)).isEmpty
  then 0
  else ((((colegios.filter (fun x => decide (0 < x.anio))).map
      (fun x => x.anio) : List Int).sum : Int) : Rat) /
    (((colegios.filter (fun x => decide (0 < x.anio))).map (fun x => x.anio)).length : Rat)

/-- Modelo de int(x) de Python sobre un flotante: truncamiento hacia
cero. -/
def truncar_py (q : Rat) : Int :=
  if q < 0 then -(⌊-q⌋) else ⌊q⌋

/-- Años de creación positivos de la colección, tal como los enumera la
especificación (proyectar el año y conservar los positivos). -/
def anios_positivos (colegios : List Colegio) : List Int :=
  (colegios.map (fun x => x.anio)).filter (fun a => decide (0 < a))

/-- Valores que calcula mostrar_estadisticas. -/
structure Estadisticas where
  mas_antiguo : Colegio
  mas_nuevo : Colegio
  promedio_anio : Rat
  promedio_anio_mostrado : Int
  total_estudiantes : Int
  promedio_estudiantes : Rat
  mas_estudiantes : Colegio
  menos_estudiantes : Colegio
deriving DecidableEq, Repr

/-- Cálculos de mostrar_estadisticas (estadisticas.py líneas 73–107)
sobre una colección no vacía, con el primer registro y el resto. -/
def calcular_estadisticas (c : Colegio) (resto : List Colegio) : Estadisticas :=
  { mas_antiguo := pyMinBy (fun x => x.anio) c resto
    mas_nuevo := pyMaxBy (fun x => x.anio) c resto
    promedio_anio := promedio_anio_de (c :: resto)
    promedio_anio_mostrado := truncar_py (promedio_anio_de (c :: resto))
    total_estudiantes := sumar_estudiantes_recursivo (c :: resto)
    promedio_estudiantes :=
      (sumar_estudiantes_recursivo (c :: resto) : Rat) / ((c :: resto).length : Rat)
    mas_estudiantes := pyMaxBy (fun x => x.cantidad) c resto
    menos_estudiantes := pyMinBy (fun x => x.cantidad) c resto }

/-- mostrar_estadisticas (estadisticas.py líneas 59–107): colección
vacía informa que no hay datos (none); si no, calcula los valores. -/
def mostrar_estadisticas_valores : List Colegio → Option Estadisticas
  | [] => none
  | c :: resto => some (calcular_estadisticas c resto)

lemma pyMinBy_le (clave : Colegio → Int) :
    ∀ (resto : List Colegio) (inicial : Colegio),
      ∀ x ∈ inicial :: resto, clave (pyMinBy clave inicial resto) ≤ clave x := by
  intro resto
  induction resto with
  | nil =>
    intro inicial x hx
    rw [List.mem_singleton] at hx
    subst hx
    simp [pyMinBy]
  | cons y resto ih =>
    intro inicial x hx
    simp only [pyMinBy]
    have hle : clave (pyMinBy clave (if clave y < clave inicial then y else inicial) resto) ≤
        clave (if clave y < clave inicial then y else inicial) :=
      ih _ _ (List.mem_cons_self _ _)
    rcases List.mem_cons.mp hx with rfl | hx2
    · refine le_trans hle ?_
      by_cases hy : clave y < clave x
      · rw [if_pos hy]
        exact le_of_lt hy
      · rw [if_neg hy]
    · rcases List.mem_cons.mp hx2 with rfl | hx3
      · refine le_trans hle ?_
        by_cases hy : clave x < clave inicial
        · rw [if_pos hy]
        · rw [if_neg hy]
          exact le_of_not_lt hy
      · exact ih _ x (List.mem_cons_of_mem _ hx3)

lemma pyMinBy_primero (clave : Colegio → Int) :
    ∀ (resto : List Colegio) (inicial : Colegio),
      (inicial :: resto).find?
          (fun x => decide (clave x ≤ clave (pyMinBy clave inicial resto))) =
        some (pyMinBy clave inicial resto) := by
  intro resto
  induction resto with
  | nil =>
    intro inicial
    simp [pyMinBy, List.find?_cons]
  | cons y resto ih =>
    intro inicial
    by_cases hy : clave y < clave inicial
    · have hr_le : clave (pyMinBy clave y resto) ≤ clave y :=
        pyMinBy_le clave resto y y (List.mem_cons_self _ _)
      have hpi : ¬(clave inicial ≤ clave (pyMinBy clave y resto)) := by omega
      simp only [pyMinBy, if_pos hy]
      rw [List.find?_cons_of_neg _ (by simpa using hpi)]
      exact ih y
    · simp only [pyMinBy, if_neg hy]
      by_cases hpi : clave inicial ≤ clave (pyMinBy clave inicial resto)
      · have hihe := ih inicial
        rw [List.find?_cons_of_pos _ (by simpa using hpi)] at hihe
        injection hihe with hihe
        rw [List.find?_cons_of_pos _ (by simpa using hpi)]
        exact congrArg some hihe
      · have hpy : ¬(clave y ≤ clave (pyMinBy clave inicial resto)) := by
          push_neg at hy hpi
          omega
        rw [List.find?_cons_of_neg _ (by simpa using hpi),
          List.find?_cons_of_neg _ (by simpa using hpy)]
        have hihe := ih inicial
        rw [List.find?_cons_of_neg _ (by simpa using hpi)] at hihe
        exact hihe

lemma pyMaxBy_eq_min (clave : Colegio → Int) :
    ∀ (resto : List Colegio) (inicial : Colegio),
      pyMaxBy clave inicial resto = pyMinBy (fun x => -(clave x)) inicial resto := by
  intro resto
  induction resto with
  | nil => intro inicial; simp [pyMaxBy, pyMinBy]
  | cons y resto ih =>
    intro inicial
    simp only [pyMaxBy, pyMinBy]
    rw [ih]
    congr 1
    by_cases h : clave inicial < clave y
    · rw [if_pos h, if_pos (by omega)]
    · rw [if_neg h, if_neg (by omega)]

lemma pyMaxBy_ge (clave : Colegio → Int) (resto : List Colegio) (inicial : Colegio) :
    ∀ x ∈ inicial :: resto, clave x ≤ clave (pyMaxBy clave inicial resto) := by
  intro x hx
  rw [pyMaxBy_eq_min]
  have h2 := pyMinBy_le (fun x => -(clave x)) resto inicial x hx
  exact neg_le_neg_iff.mp h2

lemma pyMaxBy_primero (clave : Colegio → Int) (resto : List Colegio) (inicial : Colegio) :
    (inicial :: resto).find?
        (fun x => decide (clave (pyMaxBy clave inicial resto) ≤ clave x)) =
      some (pyMaxBy clave inicial resto) := by
  have h := pyMinBy_primero (fun x => -(clave x)) resto inicial
  rw [pyMaxBy_eq_min]
  have hpred : (fun x => decide (-(clave x) ≤ -(clave (pyMinBy (fun x => -(clave x)) inicial resto)))) =
      fun x => decide (clave (pyMinBy (fun x => -(clave x)) inicial resto) ≤ clave x) := by
    funext x
    exact decide_eq_decide.mpr neg_le_neg_iff
  rw [hpred] at h
  exact h


lemma anios_positivos_eq (colegios : List Colegio) :
    anios_positivos colegios =
      (colegios.filter (fun x => decide (0 < x.anio))).map (fun x => x.anio) := by
  unfold anios_positivos
  rw [List.filter_map]
  rfl

/-- C7: sobre una colección no vacía, las estadísticas informan como
más antiguo el primer registro que alcanza el año mínimo y como más
nuevo el primer registro que alcanza el año máximo (en empates gana la
primera aparición en ambos casos), y el promedio de año se calcula solo
sobre los registros con año > 0 (0 si no hay ninguno). En particular,
con años 1950, 2005, 1950 informa el primer 1950 como más antiguo, el
2005 como más nuevo y el promedio truncado para mostrar 1968. -/
theorem estadisticas_extremos_y_promedio :
    (∀ (c : Colegio) (resto : List Colegio),
      ((c :: resto).find?
          (fun x => decide (x.anio ≤ (calcular_estadisticas c resto).mas_antiguo.anio)) =
        some (calcular_estadisticas c resto).mas_antiguo ∧
        ∀ x ∈ c :: resto, (calcular_estadisticas c resto).mas_antiguo.anio ≤ x.anio) ∧
      ((c :: resto).find?
          (fun x => decide ((calcular_estadisticas c resto).mas_nuevo.anio ≤ x.anio)) =
        some (calcular_estadisticas c resto).mas_nuevo ∧
        ∀ x ∈ c :: resto, x.anio ≤ (calcular_estadisticas c resto).mas_nuevo.anio) ∧
      ((calcular_estadisticas c resto).promedio_anio *
          ((anios_positivos (c :: resto)).length : Rat) =
        ((anios_positivos (c :: resto)).sum : Rat) ∧
        (anios_positivos (c :: resto) = [] →
          (calcular_estadisticas c resto).promedio_anio = 0))) ∧
      mostrar_estadisticas_valores [] = none ∧
      (calcular_estadisticas ⟨"P1", "Colegio Viejo", 100, 1950⟩
          [⟨"P2", "Colegio Nuevo", 200, 2005⟩, ⟨"P3", "Otro Viejo", 300, 1950⟩]).mas_antiguo =
        ⟨"P1", "Colegio Viejo", 100, 1950⟩ ∧
      (calcular_estadisticas ⟨"P1", "Colegio Viejo", 100, 1950⟩
          [⟨"P2", "Colegio Nuevo", 200, 2005⟩, ⟨"P3", "Otro Viejo", 300, 1950⟩]).mas_nuevo =
        ⟨"P2", "Colegio Nuevo", 200, 2005⟩ ∧
      (calcular_estadisticas ⟨"P1", "Colegio Viejo", 100, 1950⟩
          [⟨"P2", "Colegio Nuevo", 200, 2005⟩,
            ⟨"P3", "Otro Viejo", 300, 1950⟩]).promedio_anio_mostrado = 1968 := by
  refine ⟨fun c resto => ⟨⟨?_, ?_⟩, ⟨?_, ?_⟩, ?_, ?_⟩, rfl, by decide, by decide, ?_⟩
  · exact pyMinBy_primero (fun x => x.anio) resto c
  · exact pyMinBy_le (fun x => x.anio) resto c
  · exact pyMaxBy_primero (fun x => x.anio) resto c
  · exact pyMaxBy_ge (fun x => x.anio) resto c
  · show promedio_anio_de (c :: resto) * _ = _
    rw [anios_positivos_eq]
    unfold promedio_anio_de
    by_cases ha : ((c :: resto).filter (fun x => decide (0 < x.anio))).map
        (fun x => x.anio) = []
    · rw [ha]
      simp
    · rw [if_neg (by simpa [List.isEmpty_iff] using ha)]
      have hlen : ((((c :: resto).filter (fun x => decide (0 < x.anio))).map
          (fun x => x.anio)).length : Rat) ≠ 0 := by
        rw [Nat.cast_ne_zero]
        simpa [List.length_eq_zero] using ha
      rw [div_mul_cancel₀ _ hlen]
  · intro ha
    rw [anios_positivos_eq] at ha
    show promedio_anio_de (c :: resto) = 0
    unfold promedio_anio_de
    rw [ha]
    simp
  · show truncar_py (promedio_anio_de
      [⟨"P1", "Colegio Viejo", 100, 1950⟩, ⟨"P2", "Colegio Nuevo", 200, 2005⟩,
        ⟨"P3", "Otro Viejo", 300, 1950⟩]) = 1968
    have hpa : promedio_anio_de
        [⟨"P1", "Colegio Viejo", 100, 1950⟩, ⟨"P2", "Colegio Nuevo", 200, 2005⟩,
          ⟨"P3", "Otro Viejo", 300, 1950⟩] = (5905 : Rat) / 3 := by
      unfold promedio_anio_de
      norm_num [List.filter, List.sum_cons]
    rw [hpa]
    unfold truncar_py
    rw [if_neg (by norm_num)]
    rw [Int.floor_eq_iff]
    constructor
    · norm_num
    · norm_num

theorem estadisticas_extremos_y_promedio_testigo :
    anios_positivos [⟨"P", "Colegio Cero", 100, 0⟩] = [] ∧
      (calcular_estadisticas ⟨"P", "Colegio Cero", 100, 0⟩ []).promedio_anio = 0 :=
  ⟨by decide,
    ((estadisticas_extremos_y_promedio.1 ⟨"P", "Colegio Cero", 100, 0⟩ []).2.2).2 (by decide)⟩

/-! ### Operaciones de administración (carga_datos.py) -/

/-- Paso final de agregar_colegio (carga_datos.py líneas 58–68): tras
validar los campos se añade el registro al final, se guarda el CSV y,
si el guardado falla, se deshace el cambio con pop(); el parámetro
escribirOk representa el resultado booleano de escribir_csv. -/
def agregar_colegio_nucleo (colegios : List Colegio) (nuevo : Colegio)
    (escribirOk : Bool) : Bool × List Colegio :=
  let tras := colegios ++ [nuevo]
  if escribirOk then (true, tras) else (false, tras.dropLast)

/-- Paso final de editar_colegio (carga_datos.py líneas 129–182): se
guarda una copia del registro original, se aplican los cambios sobre el
índice encontrado, se guarda el CSV y, si el guardado falla, se
restaura el registro original en su índice; las entradas interactivas
ya validadas se representan por el registro resultante. -/
def editar_colegio_nucleo (colegios : List Colegio) (idx : Nat) (nuevo : Colegio)
    (escribirOk : Bool) : Bool × List Colegio :=
  match colegios[idx]? with
  | none => (false, colegios)
  | some original =>
    let tras := colegios.set idx nuevo
    if escribirOk then (true, tras) else (false, tras.set idx original)

/-- Paso final de borrar_colegio (carga_datos.py líneas 236–255): se
recuerda el registro a borrar, se quita con pop(idx), se guarda el CSV
y, si el guardado falla, se reinserta con insert(idx, registro). -/
def borrar_colegio_nucleo (colegios : List Colegio) (idx : Nat)
    (escribirOk : Bool) : Bool × List Colegio :=
  match colegios[idx]? with
  | none => (false, colegios)
  | some victima =>
    let tras := colegios.eraseIdx idx
    if escribirOk then (true, tras) else (false, tras.insertIdx idx victima)

lemma insertIdx_eraseIdx_get :
    ∀ (l : List Colegio) (idx : Nat) (h : idx < l.length),
      (l.eraseIdx idx).insertIdx idx l[idx] = l := by
  intro l
  induction l with
  | nil => intro idx h; simp at h
  | cons a resto ih =>
    intro idx h
    cases idx with
    | zero => rfl
    | succ j =>
      simp only [List.eraseIdx_cons_succ, List.getElem_cons_succ, List.insertIdx_succ_cons]
      rw [ih j (by simpa using h)]

lemma set_set_get (l : List Colegio) (idx : Nat) (nuevo : Colegio)
    (h : idx < l.length) : (l.set idx nuevo).set idx l[idx] = l := by
  rw [List.set_set]
  refine List.ext_getElem (by simp) ?_
  intro j h1 h2
  rw [List.getElem_set]
  split
  · next he => subst he; rfl
  · rfl

/-- C9: cuando el guardado del CSV falla durante un alta, edición o
borrado (escribir_csv devuelve False), la operación devuelve False y la
colección en memoria queda exactamente como antes: agregar quita el
registro añadido, editar restaura el original en su índice y borrar lo
reinserta en su posición original. -/
theorem reversion_si_falla_guardado :
    (∀ (colegios : List Colegio) (nuevo : Colegio),
      agregar_colegio_nucleo colegios nuevo false = (false, colegios)) ∧
      (∀ (colegios : List Colegio) (idx : Nat) (nuevo : Colegio), idx < colegios.length →
        editar_colegio_nucleo colegios idx nuevo false = (false, colegios)) ∧
      ∀ (colegios : List Colegio) (idx : Nat), idx < colegios.length →
        borrar_colegio_nucleo colegios idx false = (false, colegios) := by
  refine ⟨fun colegios nuevo => ?_, fun colegios idx nuevo h => ?_, fun colegios idx h => ?_⟩
  · unfold agregar_colegio_nucleo
    rw [if_neg (by simp), List.dropLast_concat]
  · unfold editar_colegio_nucleo
    rw [List.getElem?_eq_getElem h]
    show (false, (colegios.set idx nuevo).set idx colegios[idx]) = (false, colegios)
    rw [set_set_get colegios idx nuevo h]
  · unfold borrar_colegio_nucleo
    rw [List.getElem?_eq_getElem h]
    show (false, (colegios.eraseIdx idx).insertIdx idx colegios[idx]) = (false, colegios)
    rw [insertIdx_eraseIdx_get colegios idx h]

theorem reversion_si_falla_guardado_testigo :
    agregar_colegio_nucleo [⟨"Salta", "Colegio X", 10, 1999⟩]
        ⟨"Jujuy", "Colegio Y", 20, 2001⟩ false =
      (false, [⟨"Salta", "Colegio X", 10, 1999⟩]) ∧
      (0 : Nat) < ([⟨"Salta", "Colegio X", 10, 1999⟩] : List Colegio).length ∧
      editar_colegio_nucleo [⟨"Salta", "Colegio X", 10, 1999⟩] 0
          ⟨"Jujuy", "Colegio Y", 20, 2001⟩ false =
        (false, [⟨"Salta", "Colegio X", 10, 1999⟩]) ∧
      borrar_colegio_nucleo [⟨"Salta", "Colegio X", 10, 1999⟩] 0 false =
        (false, [⟨"Salta", "Colegio X", 10, 1999⟩]) :=
  ⟨reversion_si_falla_guardado.1 [⟨"Salta", "Colegio X", 10, 1999⟩]
      ⟨"Jujuy", "Colegio Y", 20, 2001⟩,
    by decide,
    reversion_si_falla_guardado.2.1 [⟨"Salta", "Colegio X", 10, 1999⟩] 0
      ⟨"Jujuy", "Colegio Y", 20, 2001⟩ (by decide),
    reversion_si_falla_guardado.2.2 [⟨"Salta", "Colegio X", 10, 1999⟩] 0 (by decide)⟩

/-! ### escribir_csv a nivel del sistema de archivos (utilidades.py, modo_api.py) -/

/-- Un diccionario de registro tal como lo maneja escribir_csv: los
cuatro campos lógicos más las claves adicionales que pueda llevar el
diccionario (por ejemplo el id que devuelve la API remota). -/
structure ColegioDict where
  base : Colegio
  extras : List String
deriving DecidableEq, Repr

/-- Registro tal como lo devuelve la API remota: los cuatro campos más
su clave id (contrato de la API, consumido por _sincronizar_api_con_local
en modo_api.py líneas 17–48). -/
def registro_api (c : Colegio) : ColegioDict :=
  ⟨c, ["id"]⟩

/-- Duplicado de comillas dentro de un campo citado (mecanismo del
módulo csv). -/
def citarLista : List Char → List Char
  | [] => []
  | c :: resto =>
    if c = '"' then '"' :: '"' :: citarLista resto else c :: citarLista resto

/-- Campo de una línea CSV con las comillas mínimas del módulo csv: se
cita solo si contiene coma, comilla o salto de línea. -/
def citar (s : String) : String :=
  if s.data.any (fun c => c = ',' || c = '"' || c = '\n' || c = '\r') then
    ⟨'"' :: citarLista s.data ++ ['"']⟩
  else s

/-- Unión de campos con comas. -/
def unirComas : List String → String
  | [] => ""
  | [s] => s
  | s :: resto => s ++ "," ++ unirComas resto

/-- Una línea CSV con el terminador por omisión del módulo csv. -/
def lineaCSV (campos : List String) : String :=
  unirComas (campos.map citar) ++ "\r\n"

/-- Línea de cabecera con los cuatro campos lógicos. -/
def cabeceraCSV : String :=
  lineaCSV ["Provincia", "Colegio", "Cantidad de Estudiantes", "Año de Creación"]

/-- Línea que escribe DictWriter para un registro. -/
def linea_de_colegio (c : Colegio) : String :=
  lineaCSV [c.provincia, c.colegio, intRepr c.cantidad, intRepr c.anio]

/-- Operaciones de escritura que realiza escribir_csv sobre el archivo
abierto, en orden: la cabecera y una línea por registro hasta el primer
registro con claves fuera de los cuatro campos, ante el cual DictWriter
lanza ValueError (segunda componente). -/
def escrituras (colegios : List ColegioDict) : List String × Bool :=
  (cabeceraCSV :: (colegios.takeWhile (fun c => c.extras.isEmpty)).map
      (fun c => linea_de_colegio c.base),
    colegios.any (fun c => !c.extras.isEmpty))

/-- Resultado de E/S de una llamada a escribir_csv: éxito, fallo al
abrir el archivo, o fallo tras haber persistido k operaciones de
escritura. -/
inductive ResultadoES where
  | exito : ResultadoES
  | falloAbrir : ResultadoES
  | falloTras : Nat → ResultadoES
deriving DecidableEq, Repr

/-- Concatenación del contenido escrito. -/
def concatenar : List String → String
  | [] => ""
  | s :: resto => s ++ concatenar resto

/-- escribir_csv (utilidades.py líneas 100–138) visto sobre el estado
del archivo destino: abre la ruta real con open(ruta, w), lo que trunca
el archivo en el acto, escribe la cabecera y las filas, y devuelve
False ante cualquier excepción (de E/S o el ValueError de DictWriter
por claves extra); solo un fallo de la propia apertura deja el
contenido previo intacto. -/
def escribir_csv (previo : Option String) (colegios : List ColegioDict)
    (es : ResultadoES) : Bool × Option String :=
  match es with
  | .falloAbrir => (false, previo)
  | .falloTras k => (false, some (concatenar ((escrituras colegios).1.take k)))
  | .exito =>
    if (escrituras colegios).2 then (false, some (concatenar (escrituras colegios).1))
    else (true, some (concatenar (escrituras colegios).1))

lemma concatenar_append : ∀ (l1 l2 : List String),
    concatenar (l1 ++ l2) = concatenar l1 ++ concatenar l2 := by
  intro l1 l2
  induction l1 with
  | nil => simp [concatenar]
  | cons s resto ih =>
    rw [List.cons_append, concatenar, concatenar, ih, String.append_assoc]

/-- C1 (contraejemplo): una escritura que falla inmediatamente después
de abrir el archivo (falloTras 0) devuelve False pero deja el archivo
vacío, no con su contenido previo: el contenido anterior del archivo no
se conserva. -/
theorem escribir_csv_fallo_contraejemplo :
    (escribir_csv (some "contenido previo")
        [⟨⟨"Salta", "Colegio X", 10, 1999⟩, []⟩] (.falloTras 0)).1 = false ∧
      (escribir_csv (some "contenido previo")
          [⟨⟨"Salta", "Colegio X", 10, 1999⟩, []⟩] (.falloTras 0)).2 = some "" ∧
      some "" ≠ some "contenido previo" := by
  refine ⟨rfl, rfl, by decide⟩

/-- C1 (enmendada): si la escritura falla, escribir_csv devuelve False,
pero el contenido previo del archivo solo se conserva cuando falla la
propia apertura: la ruta real se abre en modo de truncado antes de
volcar nada, así que un fallo a mitad de camino deja el archivo con un
prefijo (posiblemente vacío) del contenido nuevo, independiente del
contenido previo. -/
theorem escribir_csv_fallo :
    ∀ (previo : Option String) (colegios : List ColegioDict) (k : Nat),
      (escribir_csv previo colegios (.falloTras k)).1 = false ∧
        (escribir_csv previo colegios (.falloTras k)).2 =
          some (concatenar ((escrituras colegios).1.take k)) ∧
        (∃ resto, concatenar (escrituras colegios).1 =
          concatenar ((escrituras colegios).1.take k) ++ resto) ∧
        escribir_csv previo colegios .falloAbrir = (false, previo) := by
  intro previo colegios k
  refine ⟨rfl, rfl, ⟨concatenar ((escrituras colegios).1.drop k), ?_⟩, rfl⟩
  rw [← concatenar_append, List.take_append_drop]

/-- C10: si algún registro de la colección lleva una clave fuera de los
cuatro campos lógicos — como hace todo registro devuelto por la API
remota a través de su campo id — escribir_csv devuelve False sea cual
sea el contenido previo y el resultado de E/S; en particular la
sincronización espejo API→local nunca consigue persistir registros que
incluyan su id. -/
theorem escribir_csv_claves_extra :
    (∀ (previo : Option String) (colegios : List ColegioDict),
      (∃ c ∈ colegios, c.extras ≠ []) →
        ∀ es, (escribir_csv previo colegios es).1 = false) ∧
      ∀ (previo : Option String) (c : Colegio) (cs : List Colegio) (es : ResultadoES),
        (escribir_csv previo ((c :: cs).map registro_api) es).1 = false := by
  have principal : ∀ (previo : Option String) (colegios : List ColegioDict),
      (∃ c ∈ colegios, c.extras ≠ []) →
        ∀ es, (escribir_csv previo colegios es).1 = false := by
    intro previo colegios h es
    cases es with
    | falloAbrir => rfl
    | falloTras k => rfl
    | exito =>
      have hany : (escrituras colegios).2 = true := by
        show colegios.any (fun c => !c.extras.isEmpty) = true
        rw [List.any_eq_true]
        obtain ⟨c, hc, hne⟩ := h
        exact ⟨c, hc, by simpa [List.isEmpty_iff] using hne⟩
      simp [escribir_csv, hany]
  refine ⟨principal, fun previo c cs es => ?_⟩
  refine principal previo _ ⟨registro_api c, ?_, by simp [registro_api]⟩ es
  exact List.mem_map_of_mem registro_api (List.mem_cons_self c cs)

theorem escribir_csv_claves_extra_testigo :
    (∃ c ∈ [⟨⟨"Buenos Aires", "Colegio Norte", 100, 1990⟩, ["id"]⟩],
      ColegioDict.extras c ≠ []) ∧
      (escribir_csv none
        [⟨⟨"Buenos Aires", "Colegio Norte", 100, 1990⟩, ["id"]⟩] .exito).1 = false :=
  ⟨by decide,
    escribir_csv_claves_extra.1 none
      [⟨⟨"Buenos Aires", "Colegio Norte", 100, 1990⟩, ["id"]⟩] (by decide) .exito⟩
